import Mathlib

/-!
# Verification of the codex_status credential-refresh-and-poll engine

Shallow embedding of `src/codex_status.js`: the staleness check
(`shouldRefreshNow` / `decodeJwtPayload`), the refresh-and-persist step
(`refreshTokensAndPersist`), the per-account session
(`collectUsageForAuth`), the per-pass error isolation (`renderOnce`),
the repeating-mode scheduler (`runTailLoop`), and the window label
derivation (`humanizeWindow`).

Modelling conventions:
* JavaScript values that may be `undefined`/missing are `Option`s; the
  JS truthiness of an optional string (`undefined`, `null` and `""` are
  falsy) is `truthyOpt`.
* Remote calls (`fetch`) are oracles supplied in an environment record:
  each call consumes one oracle outcome, either a parsed JSON body or a
  thrown `JsError` carrying the optional HTTP `status` and the
  AbortError flag.
* base64url-decoding composed with `JSON.parse` of a JWT segment is an
  abstract parse oracle (the byte-level base64 decoding is outside the
  claims); the surrounding string operations (the split on ".", the
  segment count check) are concrete.
* Wall-clock instants are naturals (milliseconds, as `Date.now()`);
  `Date#toISOString` is modelled by the injective encoding `isoOfTime`.
* JS numbers occurring in the claims are integers in the source ranges
  involved, so they are embedded as `Int`; `Math.round(m / 60)` for an
  integer `m` is exact in binary floating point at every tie, so the
  integer formula `(m + 30).fdiv 60` is its exact image.
-/

/-- A thrown JavaScript error as the engine observes it: the message,
the optional numeric `status` set by the HTTP helpers, and whether
`isAbortError` holds of it (name `AbortError` or code `ABORT_ERR`). -/
structure JsError where
  message : String
  status : Option Int := none
  isAbort : Bool := false
deriving DecidableEq, Repr

/-- `isAbortError(err)` from the source, on the embedded error record. -/
def isAbortError (e : JsError) : Bool := e.isAbort

/-- The `AbortError` produced by `abortError()` / `ensureNotAborted`. -/
def abortJsError : JsError := { message := "Aborted", isAbort := true }

/-- Outcome of one remote call: the parsed response body, or a thrown
error (non-2xx status, network failure, or abort). -/
inductive RemoteOutcome (α : Type) where
  | ok (v : α)
  | err (e : JsError)
deriving DecidableEq, Repr

/-- JS truthiness of an optional string: `undefined`/`null` and the
empty string are falsy, every other string is truthy. -/
def truthyOpt (s : Option String) : Bool :=
  match s with
  | none => false
  | some v => v ≠ ""

/-- `a || b || null` over optional strings: the first truthy entry of
the list, `null` when none is truthy. -/
def firstTruthy : List (Option String) → Option String
  | [] => none
  | a :: rest => if truthyOpt a then a else firstTruthy rest

/-!
## Token codec: `decodeJwtPayload` and `shouldRefreshNow`
-/

/-- The JSON value produced by parsing a JWT payload segment, restricted
to what `shouldRefreshNow` inspects: either a falsy value (so that
`!payload` holds), or a truthy object whose `exp` member is a number
(`some`) or absent / non-numeric (`none`). -/
inductive JsVal where
  | nullish
  | obj (exp : Option Int)
deriving DecidableEq, Repr

/-- The split of a string on the dot separator, on the character list: JS semantics, so the
empty string yields one empty segment and separators at the ends yield
empty segments. -/
def splitCharsOnDot : List Char → List (List Char)
  | [] => [[]]
  | c :: cs =>
    let rest := splitCharsOnDot cs
    if c = '.' then [] :: rest
    else
      match rest with
      | [] => [[c]]
      | g :: gs => (c :: g) :: gs

/-- The split of the token on the dot separator from the source, as a structurally recursive
function on the string contents. -/
def splitOnDot (s : String) : List String :=
  (splitCharsOnDot s.data).map (fun cs => String.mk cs)

/-- `decodeJwtPayload(token)`: `null` for a non-string token or one with
fewer than two "."-separated segments; otherwise base64url-decode the
second segment and `JSON.parse` it. The composition of
`base64UrlDecode` and `JSON.parse` is the abstract oracle `parse`,
which may throw (`Except.error`). -/
def decodeJwtPayload (parse : String → Except Unit JsVal) (token : Option String) :
    Except Unit JsVal :=
  match token with
  | none => Except.ok JsVal.nullish
  | some t =>
    match splitOnDot t with
    | _ :: seg :: _ => parse seg
    | _ => Except.ok JsVal.nullish

/-- `EXP_SKEW_SECONDS` from the source. -/
def EXP_SKEW_SECONDS : Int := 60

/-- `shouldRefreshNow(accessToken)`: decode the payload inside a
`try`/`catch` that turns any parse failure into `false`; return `false`
when the payload is falsy or its `exp` is not a number; otherwise stale
iff `now ≥ exp − EXP_SKEW_SECONDS`, where `now` is the current epoch
time in seconds. -/
def shouldRefreshNow (parse : String → Except Unit JsVal) (nowSec : Int)
    (accessToken : Option String) : Bool :=
  match decodeJwtPayload parse accessToken with
  | Except.error _ => false
  | Except.ok JsVal.nullish => false
  | Except.ok (JsVal.obj none) => false
  | Except.ok (JsVal.obj (some exp)) => decide (nowSec ≥ exp - EXP_SKEW_SECONDS)

/-!
## Window label derivation: `humanizeWindow`
-/

/-- `Math.round(m / 60)` for an integer `m`: round half away from zero;
for the nonnegative and tie cases reachable here this is
`⌊(m + 30) / 60⌋`. Exact: `m / 60` hits a tie only when `m = 60k + 30`,
and `(2k+1)/2` is exactly representable in float64. -/
def jsRoundDiv60 (m : Int) : Int := (m + 30).fdiv 60

/-- `humanizeWindow(minutes)`: `"unknown"` for `null`; up to one day the
number of hours rounded to the nearest hour (minimum 1) suffixed `"h"`;
then `"weekly"` up to one week, `"monthly"` up to 30 days, `"annual"`
beyond. -/
def humanizeWindow (minutes : Option Int) : String :=
  match minutes with
  | none => "unknown"
  | some m =>
    if m ≤ 1440 then
      toString (max 1 (jsRoundDiv60 m)) ++ "h"
    else if m ≤ 10080 then "weekly"
    else if m ≤ 43200 then "monthly"
    else "annual"

/-!
## Credential bundle and `refreshTokensAndPersist`
-/

/-- The `tokens` mapping of an `auth.json` bundle. Recognized fields are
optional strings (`none` = absent or non-string); `extra` carries every
other member, which the engine never touches. -/
structure Tokens where
  access_token : Option String := none
  id_token : Option String := none
  refresh_token : Option String := none
  account_id : Option String := none
  extra : List (String × String) := []
deriving DecidableEq, Repr

/-- A parsed `auth.json` mapping: the `tokens` sub-mapping (absent when
the file lacks it), `last_refresh`, and every other top-level member in
`extra`. -/
structure Auth where
  tokens : Option Tokens := none
  last_refresh : Option String := none
  extra : List (String × String) := []
deriving DecidableEq, Repr

/-- The JSON body returned by the token endpoint on success. -/
structure TokenResponse where
  access_token : Option String := none
  id_token : Option String := none
  refresh_token : Option String := none
deriving DecidableEq, Repr

/-- `new Date(t).toISOString()` on the model clock: an injective
encoding of the millisecond instant. -/
def isoOfTime (t : Int) : String := "iso:" ++ toString t

/-- One serialized field line of the persisted bundle. -/
def stringifyField (k : String) (v : Option String) : String :=
  match v with
  | none => "  " ++ k ++ ": null"
  | some s => "  " ++ k ++ ": " ++ s

/-- `JSON.stringify(auth, null, 2)`, modelled as a concrete injective
pretty-printer over the embedded `Auth` record (two-space indentation;
the byte-exact JSON text is outside the claims). -/
def stringifyAuth (a : Auth) : String :=
  let tok :=
    match a.tokens with
    | none => "  tokens: absent"
    | some t =>
      String.intercalate "\n"
        [stringifyField "tokens.access_token" t.access_token,
         stringifyField "tokens.id_token" t.id_token,
         stringifyField "tokens.refresh_token" t.refresh_token,
         stringifyField "tokens.account_id" t.account_id,
         "  tokens.extra: " ++ String.intercalate "," (t.extra.map (fun p => p.1 ++ "=" ++ p.2))]
  String.intercalate "\n"
    [tok,
     stringifyField "last_refresh" a.last_refresh,
     "  extra: " ++ String.intercalate "," (a.extra.map (fun p => p.1 ++ "=" ++ p.2))]

deriving instance DecidableEq for Except

/-- What one call of `refreshTokensAndPersist` did: the value returned
or error thrown, the (possibly mutated) `auth` object, how many POSTs
reached the token endpoint, and the file content written, if any. -/
structure RefreshRun where
  result : Except JsError Tokens
  auth : Auth
  endpointCalls : Nat
  persisted : Option String
deriving DecidableEq, Repr

/-- Lines 278–284 of the source: the three token-field assignments of a
successful refresh. `access_token` is always overwritten; `id_token`
and `refresh_token` only when the response carries a truthy value. -/
def mutateTokens (t0 : Tokens) (refreshed : TokenResponse) : Tokens :=
  let t1 := { t0 with access_token := refreshed.access_token }
  let t2 := if truthyOpt refreshed.id_token then
              { t1 with id_token := refreshed.id_token } else t1
  if truthyOpt refreshed.refresh_token then
    { t2 with refresh_token := refreshed.refresh_token } else t2

/-- Message of the no-refresh-token configuration error. -/
def missingRefreshTokenMsg : String :=
  "Cannot refresh tokens: refresh_token is missing from auth.json."

/-- Message of the malformed-token-endpoint-response protocol error. -/
def noAccessTokenMsg : String :=
  "Token refresh succeeded but no access_token was returned."

/-- `refreshTokensAndPersist(authPath, auth, refreshToken, signal)`.
Order of the source: reject a falsy refresh token before anything else;
`ensureNotAborted`; POST the token endpoint (outcome `remote`, reached
at `tEntry`, resolving after `remoteDuration` ms); reject a response
with no truthy `access_token`; mutate `auth.tokens` (keeping `id_token`
and `refresh_token` when the response lacks them), stamp
`auth.last_refresh` with the current ISO time, write the bundle back
pretty-printed with a trailing newline, and return `auth.tokens`. -/
def refreshTokensAndPersist (auth : Auth) (refreshToken : Option String)
    (aborted : Bool) (remote : RemoteOutcome TokenResponse)
    (tEntry remoteDuration : Nat) : RefreshRun :=
  if ¬ truthyOpt refreshToken then
    ⟨Except.error { message := missingRefreshTokenMsg }, auth, 0, none⟩
  else if aborted then
    ⟨Except.error abortJsError, auth, 0, none⟩
  else
    match remote with
    | RemoteOutcome.err e => ⟨Except.error e, auth, 1, none⟩
    | RemoteOutcome.ok refreshed =>
      if ¬ truthyOpt refreshed.access_token then
        ⟨Except.error { message := noAccessTokenMsg }, auth, 1, none⟩
      else
        let t3 := mutateTokens (auth.tokens.getD {}) refreshed
        let stamp := isoOfTime (Int.ofNat (tEntry + remoteDuration))
        let auth' := { auth with tokens := some t3, last_refresh := some stamp }
        ⟨Except.ok t3, auth', 1, some (stringifyAuth auth' ++ "\n")⟩

/-!
## Usage payload, identity decoding and result assembly
-/

/-- A rate window as returned by the usage endpoint; each field accepts
the snake_case or camelCase key variant. -/
structure RawWindow where
  used_percent : Option Int := none
  usedPercent : Option Int := none
  limit_window_seconds : Option Int := none
  limitWindowSeconds : Option Int := none
  reset_at : Option Int := none
  resetAt : Option Int := none
deriving DecidableEq, Repr

/-- The `rate_limit` object of the usage response. -/
structure RateLimitDetails where
  allowed : Option Bool := none
  limit_reached : Option Bool := none
  primary_window : Option RawWindow := none
  secondary_window : Option RawWindow := none
deriving DecidableEq, Repr

/-- The parsed usage endpoint response body. -/
structure Usage where
  plan_type : Option String := none
  rate_limit : Option RateLimitDetails := none
deriving DecidableEq, Repr

/-- What `decodeIdToken` extracts from an id token payload: the `email`
claim and the nested `https:\x2f\x2fapi.openai.com\x2fauth` claims. -/
structure Identity where
  email : Option String := none
  chatgpt_plan_type : Option String := none
  chatgpt_account_id : Option String := none
deriving DecidableEq, Repr

/-- `decodeIdToken(raw)`: `\x7b\x7d` for a non-string or a token with
fewer than two segments; otherwise decode the second segment with the
abstract parse-and-extract oracle `parseId` (`none` models a
`JSON.parse` failure, which the source logs and turns into `\x7b\x7d`).
Never throws. -/
def decodeIdToken (parseId : String → Option Identity) (raw : Option String) : Identity :=
  match raw with
  | none => {}
  | some t =>
    match splitOnDot t with
    | _ :: seg :: _ => (parseId seg).getD {}
    | _ => {}

/-- `a ?? b` for optional integers (nullish coalescing). -/
def coalesceInt (a b : Option Int) : Option Int :=
  match a with
  | some v => some v
  | none => b

/-- `Math.ceil(s / 60)` for an integer `s`. -/
def ceilDiv60 (s : Int) : Int := (s + 59).fdiv 60

/-- A mapped rate window as assembled by `mapWindow`. -/
structure MappedWindow where
  label : String
  percentUsed : Int
  percentRemaining : Int
  windowMinutes : Option Int
  resetsAt : Option String
  raw : RawWindow
deriving DecidableEq, Repr

/-- `mapWindow(window)`: `null` in, `null` out; otherwise read the used
percentage (`?? 0`), derive `windowMinutes = ceil(seconds/60)` and its
human label, clamp the displayed remaining percentage at 0, and convert
the reset epoch to an ISO instant. -/
def mapWindow (w : Option RawWindow) : Option MappedWindow :=
  match w with
  | none => none
  | some window =>
    let usedPercent := (coalesceInt window.used_percent
        (coalesceInt window.usedPercent (some 0))).getD 0
    let windowSeconds := coalesceInt window.limit_window_seconds window.limitWindowSeconds
    let windowMinutes := windowSeconds.map ceilDiv60
    let label := match windowMinutes with
      | some m => humanizeWindow (some m)
      | none => "unknown"
    let resetAtSeconds := coalesceInt window.reset_at window.resetAt
    some
      { label := label
        percentUsed := usedPercent
        percentRemaining := max 0 (100 - usedPercent)
        windowMinutes := windowMinutes
        resetsAt := resetAtSeconds.map (fun r => isoOfTime (r * 1000))
        raw := window }

/-- The per-account record returned by `collectUsageForAuth`. -/
structure AccountResult where
  authFile : String
  email : Option String := none
  accountId : Option String := none
  planFromToken : Option String := none
  planFromUsage : Option String := none
  allowed : Option Bool := none
  limitReached : Option Bool := none
  primary : Option MappedWindow := none
  secondary : Option MappedWindow := none
  fetchedAt : String := ""
  lastRefresh : Option String := none
deriving DecidableEq, Repr

/-- Message thrown by `validateTokenBundle` when `tokens.access_token`
is missing, non-string or empty. -/
def tokensMissingMsg : String :=
  "auth.json does not contain ChatGPT tokens (expected tokens.access_token). Run codex login first."

/-- `validateTokenBundle(tokens)`: requires `access_token` to be a
non-empty string. -/
def validTokenBundle (t : Tokens) : Bool :=
  match t.access_token with
  | none => false
  | some s => s ≠ ""

/-- The oracles and clock one `collectUsageForAuth` invocation draws on:
the (static) abort flag, the epoch seconds used by the staleness check,
the payload-parsing oracles of the two token kinds, the outcome of the
i-th usage fetch as a function of the access token presented, the
outcome, entry instant and duration of the i-th token-endpoint POST,
and the instant of result assembly. -/
structure SessionEnv where
  aborted : Bool := false
  nowSec : Int := 0
  parseJwt : String → Except Unit JsVal := fun _ => Except.ok JsVal.nullish
  parseId : String → Option Identity := fun _ => none
  fetch : Nat → Option String → RemoteOutcome Usage
  refreshRemote : Nat → RemoteOutcome TokenResponse := fun _ => RemoteOutcome.err { message := "no refresh oracle" }
  refreshEntry : Nat → Nat := fun _ => 0
  refreshDur : Nat → Nat := fun _ => 0
  assembleTime : Nat := 0

/-- What one `collectUsageForAuth` invocation did: the result returned
or the error thrown, the access tokens handed to `fetchUsage` in call
order, the number of POSTs that reached the token endpoint, and the
bundle contents persisted in order. -/
structure SessionRun where
  result : Except JsError AccountResult
  fetchTokens : List (Option String)
  refreshEndpointCalls : Nat
  persists : List String
deriving DecidableEq, Repr

/-- Lines 182–200 of the source: assemble the `AccountResult` from the
final tokens, the (possibly refresh-mutated) `auth` object, the initial
identity and account id, and the usage payload; the identity is
re-decoded from the possibly rotated `id_token`. -/
def assembleResult (env : SessionEnv) (authPath : String) (auth : Auth) (tokens : Tokens)
    (initialIdentity : Identity) (accountId0 : Option String) (usage : Usage) : AccountResult :=
  let refreshedIdentity := decodeIdToken env.parseId tokens.id_token
  let planFromToken := firstTruthy [refreshedIdentity.chatgpt_plan_type]
  let derivedAccountId := firstTruthy [refreshedIdentity.chatgpt_account_id]
  let accountId := match accountId0 with
    | some a => some a
    | none => firstTruthy [tokens.account_id, derivedAccountId]
  let details := usage.rate_limit
  { authFile := authPath
    email := firstTruthy [refreshedIdentity.email, initialIdentity.email]
    accountId := accountId
    planFromToken := planFromToken
    planFromUsage := firstTruthy [usage.plan_type]
    allowed := details.bind (fun d => d.allowed)
    limitReached := details.bind (fun d => d.limit_reached)
    primary := mapWindow (details.bind (fun d => d.primary_window))
    secondary := mapWindow (details.bind (fun d => d.secondary_window))
    fetchedAt := isoOfTime (Int.ofNat env.assembleTime)
    lastRefresh := auth.last_refresh }

/-- Lines 157–173 of the source: the usage fetch with the single
401-refresh-retry. `auth1`/`tokens1` are the state after the proactive
step, `rc` the token-endpoint calls and `ps` the persists made so far.
On a thrown fetch error whose `status` is exactly 401 with a truthy
refresh token available, refresh once (persisting) and retry once; any
error of that refresh or retry, and any other first-fetch error, is
rethrown unchanged. -/
def usageFetchStep (env : SessionEnv) (authPath : String) (auth1 : Auth) (tokens1 : Tokens)
    (initialIdentity : Identity) (accountId0 : Option String) (rc : Nat) (ps : List String) :
    SessionRun :=
  match env.fetch 0 tokens1.access_token with
  | RemoteOutcome.ok usage =>
    ⟨Except.ok (assembleResult env authPath auth1 tokens1 initialIdentity accountId0 usage),
      [tokens1.access_token], rc, ps⟩
  | RemoteOutcome.err e =>
    if e.status = some 401 ∧ truthyOpt tokens1.refresh_token then
      let r := refreshTokensAndPersist auth1 tokens1.refresh_token env.aborted
        (env.refreshRemote rc) (env.refreshEntry rc) (env.refreshDur rc)
      match r.result with
      | Except.error e2 =>
        ⟨Except.error e2, [tokens1.access_token], rc + r.endpointCalls, ps ++ r.persisted.toList⟩
      | Except.ok tokens2 =>
        match env.fetch 1 tokens2.access_token with
        | RemoteOutcome.err e3 =>
          ⟨Except.error e3, [tokens1.access_token, tokens2.access_token],
            rc + r.endpointCalls, ps ++ r.persisted.toList⟩
        | RemoteOutcome.ok usage =>
          ⟨Except.ok (assembleResult env authPath r.auth tokens2 initialIdentity accountId0 usage),
            [tokens1.access_token, tokens2.access_token],
            rc + r.endpointCalls, ps ++ r.persisted.toList⟩
    else
      ⟨Except.error e, [tokens1.access_token], rc, ps⟩

/-- `collectUsageForAuth(authPath, signal)` (lines 138–201): check for
abort; read the bundle (outcome `readResult`); default a missing
`tokens` mapping to `\x7b\x7d`; validate the access token; decode the
initial identity and resolve the account id; proactively refresh when
the token is stale and a refresh token is truthy; then fetch usage with
the single-retry rule and assemble the result. -/
def collectUsageForAuth (env : SessionEnv) (authPath : String)
    (readResult : Except JsError Auth) : SessionRun :=
  if env.aborted then
    ⟨Except.error abortJsError, [], 0, []⟩
  else
    match readResult with
    | Except.error e => ⟨Except.error e, [], 0, []⟩
    | Except.ok auth0 =>
      let auth := if auth0.tokens.isSome then auth0 else { auth0 with tokens := some {} }
      let tokens := auth.tokens.getD {}
      if ¬ validTokenBundle tokens then
        ⟨Except.error { message := tokensMissingMsg }, [], 0, []⟩
      else
        let initialIdentity := decodeIdToken env.parseId tokens.id_token
        let accountId0 := firstTruthy [tokens.account_id, initialIdentity.chatgpt_account_id]
        if shouldRefreshNow env.parseJwt env.nowSec tokens.access_token ∧
            truthyOpt tokens.refresh_token then
          let r := refreshTokensAndPersist auth tokens.refresh_token env.aborted
            (env.refreshRemote 0) (env.refreshEntry 0) (env.refreshDur 0)
          match r.result with
          | Except.error e =>
            ⟨Except.error e, [], r.endpointCalls, r.persisted.toList⟩
          | Except.ok tokens1 =>
            usageFetchStep env authPath r.auth tokens1 initialIdentity accountId0
              r.endpointCalls r.persisted.toList
        else
          usageFetchStep env authPath auth tokens initialIdentity accountId0 0 []

/-!
## Per-pass error isolation: `renderOnce`
-/

/-- One entry of the results list a pass builds: the full per-account
record on success, or the fallback record
`\x7b authFile, error: message \x7d` on a captured failure. -/
inductive Row where
  | success (r : AccountResult)
  | failure (authFile : String) (error : String)
deriving DecidableEq, Repr

/-- The loop body of `renderOnce` (lines 40–56): for each configured
path check for abort, run the account session, push the result, and on
a thrown error rethrow it when it is an AbortError, else push the
fallback error row. `sig i` is the abort flag observed after `i`
accounts were handled; `outcome i p` the outcome of
`collectUsageForAuth` for the `i`-th path `p`. -/
def renderOnceGo (sig : Nat → Bool) (outcome : Nat → String → Except JsError AccountResult) :
    List String → Nat → List Row → Except JsError (List Row)
  | [], i, acc => if sig i then Except.error abortJsError else Except.ok acc.reverse
  | p :: ps, i, acc =>
    if sig i then Except.error abortJsError
    else
      match outcome i p with
      | Except.ok r => renderOnceGo sig outcome ps (i + 1) (Row.success r :: acc)
      | Except.error e =>
        if isAbortError e then Except.error e
        else renderOnceGo sig outcome ps (i + 1) (Row.failure p e.message :: acc)

/-- `renderOnce(signal)` (lines 38–59): abort check on entry, the
per-account loop, and a final abort check before the results are
returned. Paths are taken already resolved (`path.resolve` is the
identity on the model). -/
def renderOnce (sig : Nat → Bool) (outcome : Nat → String → Except JsError AccountResult)
    (authPaths : List String) : Except JsError (List Row) :=
  if sig 0 then Except.error abortJsError
  else renderOnceGo sig outcome authPaths 0 []

/-!
## Repeating mode: `runTailLoop`
-/

/-- `REFRESH_INTERVAL_MS` from the source. -/
def REFRESH_INTERVAL_MS : Nat := 30000

/-- `POLL_INTERVAL_MS` from the source. -/
def POLL_INTERVAL_MS : Nat := 500

/-- Outcome of one `renderStep()` call, as classified by the loop:
rendered normally, ended in an AbortError (mapped to quit), or ended in
another error (logged, loop terminates). -/
inductive RenderOutcome where
  | rendered
  | abortedPass
  | failed (message : String)
deriving DecidableEq, Repr

/-- Environment of one `runTailLoop` run: the wall-clock duration and
outcome of the `k`-th pass, and the instant the quit trigger (the `q`
key or Ctrl-C resolving `quitPromise`) fires, if ever. -/
structure TailEnv where
  renderDur : Nat → Nat
  renderOutcome : Nat → RenderOutcome := fun _ => RenderOutcome.rendered
  quitAt : Option Nat := none

/-- State of the `runTailLoop` while-loop at the top of an iteration:
the current `Date.now()`, `lastRenderAt` (0 = never rendered, the
initial value in the source), the start/completion instants of the passes
performed, and how the loop ended, if it did. -/
structure TailState where
  time : Nat := 0
  lastRenderAt : Nat := 0
  renders : List (Nat × Nat) := []
  stopped : Bool := false
  errored : Bool := false
deriving DecidableEq, Repr

/-- The `due` condition of the loop:
`lastRenderAt === 0 || now - lastRenderAt >= REFRESH_INTERVAL_MS`. -/
def tailDue (s : TailState) : Bool :=
  s.lastRenderAt = 0 || s.time - s.lastRenderAt ≥ REFRESH_INTERVAL_MS

/-- `Math.max(0, REFRESH_INTERVAL_MS - (now - lastRenderAt))`. -/
def tailRemaining (s : TailState) : Nat :=
  ((REFRESH_INTERVAL_MS : Int) - ((s.time : Int) - (s.lastRenderAt : Int))).toNat

/-- `Math.min(POLL_INTERVAL_MS, remaining)`: the length of one wait
tick. -/
def tailWaitDuration (s : TailState) : Nat :=
  min POLL_INTERVAL_MS (tailRemaining s)

/-- Whether the quit trigger fires strictly before instant `t` (so the
`Promise.race` resolves with `quit` rather than with the step listed
first; a tie goes to the first-listed promise). -/
def quitWinsBefore (env : TailEnv) (t : Nat) : Bool :=
  match env.quitAt with
  | none => false
  | some tq => tq < t

/-- The loop exits the moment the quit promise resolves: at `tq`, or
immediately if the trigger already fired. -/
def quitExitTime (env : TailEnv) (s : TailState) : Nat :=
  match env.quitAt with
  | none => s.time
  | some tq => max s.time tq

/-- One iteration of the `while (true)` body of `runTailLoop`
(lines 84–110). When due: race `renderStep()` against `quitPromise`;
a quit resolving first (or an AbortError from the pass) breaks the
loop, a pass failure logs and breaks with an error, a rendered pass
stamps `lastRenderAt` with its completion instant and continues.
When not due: race one bounded sleep tick against `quitPromise`; a
quit breaks the loop, otherwise time advances by the tick. -/
def tailStep (env : TailEnv) (s : TailState) : TailState :=
  if tailDue s then
    let k := s.renders.length
    let tEnd := s.time + env.renderDur k
    if quitWinsBefore env tEnd then
      { s with time := quitExitTime env s, stopped := true }
    else
      match env.renderOutcome k with
      | RenderOutcome.rendered =>
        { s with time := tEnd, lastRenderAt := tEnd, renders := s.renders ++ [(s.time, tEnd)] }
      | RenderOutcome.abortedPass =>
        { s with time := tEnd, stopped := true }
      | RenderOutcome.failed _ =>
        { s with time := tEnd, stopped := true, errored := true }
  else
    let tEnd := s.time + tailWaitDuration s
    if quitWinsBefore env tEnd then
      { s with time := quitExitTime env s, stopped := true }
    else
      { s with time := tEnd }

/-- Iterate `tailStep` for at most `fuel` iterations, stopping when the
loop has exited. -/
def tailRun (env : TailEnv) : Nat → TailState → TailState
  | 0, s => s
  | fuel + 1, s => if s.stopped then s else tailRun env fuel (tailStep env s)

/-!
## Helper lemmas
-/

theorem mutateTokens_access_token (t0 : Tokens) (resp : TokenResponse) :
    (mutateTokens t0 resp).access_token = resp.access_token := by
  unfold mutateTokens
  split <;> split <;> rfl

theorem mutateTokens_id_token_keep (t0 : Tokens) (resp : TokenResponse)
    (h : truthyOpt resp.id_token = false) :
    (mutateTokens t0 resp).id_token = t0.id_token := by
  unfold mutateTokens
  simp [h]
  split <;> rfl

theorem mutateTokens_refresh_token_keep (t0 : Tokens) (resp : TokenResponse)
    (h : truthyOpt resp.refresh_token = false) :
    (mutateTokens t0 resp).refresh_token = t0.refresh_token := by
  unfold mutateTokens
  simp [h]
  split <;> rfl

theorem mutateTokens_account_id (t0 : Tokens) (resp : TokenResponse) :
    (mutateTokens t0 resp).account_id = t0.account_id := by
  unfold mutateTokens
  split <;> split <;> rfl

theorem mutateTokens_extra (t0 : Tokens) (resp : TokenResponse) :
    (mutateTokens t0 resp).extra = t0.extra := by
  unfold mutateTokens
  split <;> split <;> rfl

theorem refresh_endpointCalls_one (auth : Auth) (rt : Option String)
    (remote : RemoteOutcome TokenResponse) (tEntry dur : Nat)
    (hrt : truthyOpt rt = true) :
    (refreshTokensAndPersist auth rt false remote tEntry dur).endpointCalls = 1 := by
  unfold refreshTokensAndPersist
  cases remote with
  | err e => simp [hrt]
  | ok resp =>
    by_cases h : truthyOpt resp.access_token = true
    · simp [hrt, h]
    · simp [hrt, h]

/-!
## Claim theorems
-/

/-- C2: for every access token whose decoded payload carries a numeric
expiry claim `exp`, `shouldRefreshNow` returns `true` iff the current
time in seconds is `≥ exp − 60`; in particular it is `false` whenever
the expiry lies more than 60 seconds in the future and `true` whenever
the expiry is at most `now + 60`. For every token whose payload cannot
be decoded or lacks a numeric expiry, it returns `false` (and, being a
total function, never raises). -/
theorem claim_C2_staleness (parse : String → Except Unit JsVal) (tok : Option String)
    (nowSec : Int) :
    (∀ exp : Int, decodeJwtPayload parse tok = Except.ok (JsVal.obj (some exp)) →
      ((shouldRefreshNow parse nowSec tok = true ↔ nowSec ≥ exp - 60) ∧
       (nowSec + 60 < exp → shouldRefreshNow parse nowSec tok = false) ∧
       (exp ≤ nowSec + 60 → shouldRefreshNow parse nowSec tok = true))) ∧
    ((∀ exp : Int, decodeJwtPayload parse tok ≠ Except.ok (JsVal.obj (some exp))) →
      shouldRefreshNow parse nowSec tok = false) := by
  constructor
  · intro exp hexp
    have hmain : shouldRefreshNow parse nowSec tok = decide (exp - 60 ≤ nowSec) := by
      simp only [shouldRefreshNow, hexp, EXP_SKEW_SECONDS, ge_iff_le]
    refine ⟨?_, ?_, ?_⟩
    · rw [hmain]
      simp only [decide_eq_true_eq, ge_iff_le]
    · intro h
      rw [hmain]
      simp only [decide_eq_false_iff_not]
      omega
    · intro h
      rw [hmain]
      simp only [decide_eq_true_eq]
      omega
  · intro hno
    unfold shouldRefreshNow
    rcases hd : decodeJwtPayload parse tok with u | v
    · rfl
    · cases v with
      | nullish => rfl
      | obj e =>
        cases e with
        | none => rfl
        | some exp => exact absurd hd (hno exp)

/-- Witness for C2 at a concrete token: with a payload decoding to
`exp = 1000`, time 940 is stale (`≥ exp − 60`) and time 939 is not. -/
theorem claim_C2_staleness_witness :
    shouldRefreshNow (fun _ => Except.ok (JsVal.obj (some 1000))) 940 (some "a.b") = true ∧
    shouldRefreshNow (fun _ => Except.ok (JsVal.obj (some 1000))) 939 (some "a.b") = false := by
  constructor
  · exact ((claim_C2_staleness (fun _ => Except.ok (JsVal.obj (some 1000))) (some "a.b") 940).1
      1000 (by decide)).2.2 (by decide)
  · exact ((claim_C2_staleness (fun _ => Except.ok (JsVal.obj (some 1000))) (some "a.b") 939).1
      1000 (by decide)).2.1 (by decide)

/-- C9: window label derivation. The seven boundary values of the claim
hold concretely, and in general: below one day the label is the nearest
hour (`h` whenever the length lies in `[60h − 30, 60h + 30)` minutes,
ties rounding up) with a floor of one hour; `(1440, 10080]` minutes is
`"weekly"`, `(10080, 43200]` is `"monthly"`, and beyond is
`"annual"`. -/
theorem claim_C9_humanizeWindow :
    humanizeWindow (some 90) = "2h" ∧
    humanizeWindow (some 1440) = "24h" ∧
    humanizeWindow (some 1441) = "weekly" ∧
    humanizeWindow (some 10080) = "weekly" ∧
    humanizeWindow (some 10081) = "monthly" ∧
    humanizeWindow (some 43200) = "monthly" ∧
    humanizeWindow (some 43201) = "annual" ∧
    (∀ m h : Int, 1 ≤ h → 60 * h - 30 ≤ m → m < 60 * h + 30 → m ≤ 1440 →
      humanizeWindow (some m) = toString h ++ "h") ∧
    (∀ m : Int, m < 30 → humanizeWindow (some m) = "1h") ∧
    (∀ m : Int, 1440 < m → m ≤ 10080 → humanizeWindow (some m) = "weekly") ∧
    (∀ m : Int, 10080 < m → m ≤ 43200 → humanizeWindow (some m) = "monthly") ∧
    (∀ m : Int, 43200 < m → humanizeWindow (some m) = "annual") := by
  refine ⟨by rfl, by rfl, by rfl, by rfl, by rfl, by rfl, by rfl, ?_, ?_, ?_, ?_, ?_⟩
  · intro m h h1 h2 h3 h4
    have hf : jsRoundDiv60 m = h := by
      unfold jsRoundDiv60
      rw [Int.fdiv_eq_ediv _ (by norm_num)]
      omega
    have hm : max 1 (jsRoundDiv60 m) = h := by
      rw [hf]
      exact max_eq_right h1
    simp only [humanizeWindow]
    rw [if_pos h4, hm]
  · intro m hm
    have hf : jsRoundDiv60 m ≤ 1 := by
      unfold jsRoundDiv60
      rw [Int.fdiv_eq_ediv _ (by norm_num)]
      omega
    have hmx : max 1 (jsRoundDiv60 m) = 1 := by omega
    simp only [humanizeWindow]
    rw [if_pos (by omega : m ≤ 1440), hmx]
    rfl
  · intro m h1 h2
    simp only [humanizeWindow]
    rw [if_neg (by omega : ¬ m ≤ 1440), if_pos h2]
  · intro m h1 h2
    simp only [humanizeWindow]
    rw [if_neg (by omega : ¬ m ≤ 1440), if_neg (by omega : ¬ m ≤ 10080), if_pos h2]
  · intro m h1
    simp only [humanizeWindow]
    rw [if_neg (by omega : ¬ m ≤ 1440), if_neg (by omega : ¬ m ≤ 10080),
      if_neg (by omega : ¬ m ≤ 43200)]

/-- Witness for C9 at fresh concrete inputs: 150 minutes rounds to
`"3h"` and 20000 minutes falls in the monthly band. -/
theorem claim_C9_humanizeWindow_witness :
    humanizeWindow (some 150) = "3h" ∧ humanizeWindow (some 20000) = "monthly" := by
  obtain ⟨-, -, -, -, -, -, -, hband, -, -, hmonth, -⟩ := claim_C9_humanizeWindow
  exact ⟨hband 150 3 (by norm_num) (by norm_num) (by norm_num) (by norm_num),
    hmonth 20000 (by norm_num) (by norm_num)⟩

/-- C8: with an absent or empty (falsy) refresh token,
`refreshTokensAndPersist` throws the configuration error before any
other step: the token endpoint is never called, nothing is persisted,
the bundle is untouched, and no retry happens inside the operation. -/
theorem claim_C8_missing_refresh_token (auth : Auth) (refreshToken : Option String)
    (aborted : Bool) (remote : RemoteOutcome TokenResponse) (tEntry dur : Nat)
    (h : truthyOpt refreshToken = false) :
    (refreshTokensAndPersist auth refreshToken aborted remote tEntry dur).result =
      Except.error { message := missingRefreshTokenMsg } ∧
    (refreshTokensAndPersist auth refreshToken aborted remote tEntry dur).endpointCalls = 0 ∧
    (refreshTokensAndPersist auth refreshToken aborted remote tEntry dur).persisted = none ∧
    (refreshTokensAndPersist auth refreshToken aborted remote tEntry dur).auth = auth := by
  unfold refreshTokensAndPersist
  simp [h]

/-- Witness for C8: an empty-string refresh token on a default bundle
makes zero endpoint calls and yields the configuration error. -/
theorem claim_C8_missing_refresh_token_witness :
    (refreshTokensAndPersist {} (some "") false
        (RemoteOutcome.ok { access_token := some "tok" }) 5 7).result =
      Except.error { message := missingRefreshTokenMsg } ∧
    (refreshTokensAndPersist {} (some "") false
        (RemoteOutcome.ok { access_token := some "tok" }) 5 7).endpointCalls = 0 := by
  have h := claim_C8_missing_refresh_token {} (some "") false
    (RemoteOutcome.ok { access_token := some "tok" }) 5 7 (by decide)
  exact ⟨h.1, h.2.1⟩

/-- C5: a successful refresh persists the mutated bundle (serialized
with a trailing newline) before returning; the returned tokens are
exactly the tokens of the persisted bundle, their `access_token` equals the
token the endpoint returned, and `last_refresh` is stamped with a valid
encoded instant no older than the completion of the refresh call
(`tEntry + dur`). -/
theorem claim_C5_refresh_persists (auth : Auth) (refreshToken : Option String)
    (resp : TokenResponse) (tEntry dur : Nat)
    (hrt : truthyOpt refreshToken = true)
    (hresp : truthyOpt resp.access_token = true) :
    ∃ t : Tokens,
      (refreshTokensAndPersist auth refreshToken false (RemoteOutcome.ok resp) tEntry dur).result =
        Except.ok t ∧
      (refreshTokensAndPersist auth refreshToken false (RemoteOutcome.ok resp) tEntry dur).auth.tokens =
        some t ∧
      t.access_token = resp.access_token ∧
      (∃ ts : Nat,
        (refreshTokensAndPersist auth refreshToken false (RemoteOutcome.ok resp) tEntry dur).auth.last_refresh =
          some (isoOfTime (Int.ofNat ts)) ∧ tEntry + dur ≤ ts) ∧
      (∃ body : String,
        (refreshTokensAndPersist auth refreshToken false (RemoteOutcome.ok resp) tEntry dur).persisted =
          some (body ++ "\n") ∧
        body = stringifyAuth
          (refreshTokensAndPersist auth refreshToken false (RemoteOutcome.ok resp) tEntry dur).auth) := by
  unfold refreshTokensAndPersist
  simp only [hrt, not_true_eq_false, if_false, Bool.false_eq_true, hresp]
  refine ⟨mutateTokens (auth.tokens.getD {}) resp, by simp, by simp, ?_, ?_, ?_⟩
  · rw [mutateTokens_access_token]
  · exact ⟨tEntry + dur, by simp, le_refl _⟩
  · exact ⟨_, rfl, rfl⟩

/-- Witness for C5 at a concrete bundle and response. -/
theorem claim_C5_refresh_persists_witness :
    ∃ t : Tokens,
      (refreshTokensAndPersist { tokens := some { access_token := some "old" } } (some "rt") false
          (RemoteOutcome.ok { access_token := some "new" }) 3 4).result = Except.ok t ∧
      t.access_token = some "new" := by
  obtain ⟨t, h1, -, h3, -⟩ := claim_C5_refresh_persists
    { tokens := some { access_token := some "old" } } (some "rt")
    { access_token := some "new" } 3 4 (by decide) (by decide)
  exact ⟨t, h1, h3⟩

/-- C10: a successful refresh retains every stored field the endpoint
response omits and touches nothing else: with no truthy `id_token` in
the response the persisted `tokens.id_token` is unchanged, likewise for
`refresh_token`; `tokens.account_id`, the unrecognized members of
`tokens`, and every top-level member of the bundle other than `tokens`
and `last_refresh` are written back unchanged. -/
theorem claim_C10_refresh_frame (auth : Auth) (refreshToken : Option String)
    (resp : TokenResponse) (tEntry dur : Nat)
    (hrt : truthyOpt refreshToken = true)
    (hresp : truthyOpt resp.access_token = true) :
    ∃ t : Tokens,
      (refreshTokensAndPersist auth refreshToken false (RemoteOutcome.ok resp) tEntry dur).auth.tokens =
        some t ∧
      t.access_token = resp.access_token ∧
      (resp.id_token = none → t.id_token = (auth.tokens.getD {}).id_token) ∧
      (resp.refresh_token = none → t.refresh_token = (auth.tokens.getD {}).refresh_token) ∧
      t.account_id = (auth.tokens.getD {}).account_id ∧
      t.extra = (auth.tokens.getD {}).extra ∧
      (refreshTokensAndPersist auth refreshToken false (RemoteOutcome.ok resp) tEntry dur).auth.extra =
        auth.extra := by
  unfold refreshTokensAndPersist
  simp only [hrt, not_true_eq_false, if_false, Bool.false_eq_true, hresp]
  refine ⟨mutateTokens (auth.tokens.getD {}) resp, by simp, mutateTokens_access_token _ _,
    ?_, ?_, mutateTokens_account_id _ _, mutateTokens_extra _ _, by simp⟩
  · intro hid
    exact mutateTokens_id_token_keep _ _ (by simp [truthyOpt, hid])
  · intro hrf
    exact mutateTokens_refresh_token_keep _ _ (by simp [truthyOpt, hrf])

/-- A concrete fully-populated bundle used by the C10 witness. -/
def c10WitnessAuth : Auth :=
  { tokens := some { access_token := some "old", id_token := some "idt", refresh_token := some "rt", account_id := some "acct" }, extra := [("k", "v")] }

/-- Witness for C10: a response carrying only an access token leaves
`id_token`, `refresh_token` and `account_id` as stored. -/
theorem claim_C10_refresh_frame_witness :
    ∃ t : Tokens,
      (refreshTokensAndPersist c10WitnessAuth (some "rt") false
          (RemoteOutcome.ok { access_token := some "new" }) 0 0).auth.tokens = some t ∧
      t.id_token = some "idt" ∧ t.refresh_token = some "rt" ∧ t.account_id = some "acct" := by
  obtain ⟨t, h1, -, h3, h4, h5, -, -⟩ := claim_C10_refresh_frame c10WitnessAuth
    (some "rt") { access_token := some "new" } 0 0 (by decide) (by decide)
  refine ⟨t, h1, ?_, ?_, ?_⟩
  · rw [h3 rfl]
    rfl
  · rw [h4 rfl]
    rfl
  · rw [h5]
    rfl

/-- If a refresh call returns tokens, the mutated bundle was persisted
(with its serialized form and trailing newline) in the same call. -/
theorem refresh_ok_persisted (auth : Auth) (rt : Option String)
    (remote : RemoteOutcome TokenResponse) (tEntry dur : Nat) (t : Tokens)
    (h : (refreshTokensAndPersist auth rt false remote tEntry dur).result = Except.ok t) :
    (refreshTokensAndPersist auth rt false remote tEntry dur).persisted =
      some (stringifyAuth (refreshTokensAndPersist auth rt false remote tEntry dur).auth ++ "\n") := by
  by_cases hrt : truthyOpt rt = true
  · cases remote with
    | err e => simp [refreshTokensAndPersist, hrt] at h
    | ok resp =>
      by_cases ha : truthyOpt resp.access_token = true
      · simp [refreshTokensAndPersist, hrt, ha]
      · simp [refreshTokensAndPersist, hrt, ha] at h
  · simp [refreshTokensAndPersist, hrt] at h

/-- C7: for a bundle whose access token is stale but which has no
truthy refresh token, the session attempts no refresh (zero token
endpoint calls, nothing persisted) and proceeds directly to the usage
fetch with the current access token; the staleness alone never becomes
an error — the session returns a result whenever the fetch succeeds and
surfaces exactly the fetch error otherwise. -/
theorem claim_C7_stale_without_refresh (env : SessionEnv) (authPath : String)
    (auth : Auth) (tks : Tokens)
    (henv : env.aborted = false)
    (htk : auth.tokens = some tks)
    (hvalid : validTokenBundle tks = true)
    (_hstale : shouldRefreshNow env.parseJwt env.nowSec tks.access_token = true)
    (hnort : truthyOpt tks.refresh_token = false) :
    (collectUsageForAuth env authPath (Except.ok auth)).refreshEndpointCalls = 0 ∧
    (collectUsageForAuth env authPath (Except.ok auth)).persists = [] ∧
    (collectUsageForAuth env authPath (Except.ok auth)).fetchTokens = [tks.access_token] ∧
    (∀ u, env.fetch 0 tks.access_token = RemoteOutcome.ok u →
      ∃ res, (collectUsageForAuth env authPath (Except.ok auth)).result = Except.ok res) ∧
    (∀ e, env.fetch 0 tks.access_token = RemoteOutcome.err e →
      (collectUsageForAuth env authPath (Except.ok auth)).result = Except.error e) := by
  have hrun : collectUsageForAuth env authPath (Except.ok auth) =
      usageFetchStep env authPath auth tks (decodeIdToken env.parseId tks.id_token)
        (firstTruthy [tks.account_id,
          (decodeIdToken env.parseId tks.id_token).chatgpt_account_id]) 0 [] := by
    unfold collectUsageForAuth
    simp [henv, htk, hvalid, hnort]
  rw [hrun]
  unfold usageFetchStep
  rcases hf : env.fetch 0 tks.access_token with u | e <;>
    simp [hf, hnort]

/-- Witness for C7: a concrete stale bundle with no refresh token whose
fetch succeeds. -/
theorem claim_C7_stale_without_refresh_witness :
    (collectUsageForAuth
      { nowSec := 1000,
        parseJwt := fun _ => Except.ok (JsVal.obj (some 900)),
        fetch := fun _ _ => RemoteOutcome.ok {} }
      "p" (Except.ok { tokens := some { access_token := some "a.b" } })).refreshEndpointCalls =
      0 := by
  exact (claim_C7_stale_without_refresh
    { nowSec := 1000, parseJwt := fun _ => Except.ok (JsVal.obj (some 900)),
      fetch := fun _ _ => RemoteOutcome.ok {} }
    "p" { tokens := some { access_token := some "a.b" } } { access_token := some "a.b" }
    (by rfl) (by rfl) (by decide) (by decide) (by decide)).1

/-- If a refresh call throws, nothing was persisted by it. -/
theorem refresh_err_persisted_none (auth : Auth) (rt : Option String)
    (remote : RemoteOutcome TokenResponse) (tEntry dur : Nat) (e : JsError)
    (h : (refreshTokensAndPersist auth rt false remote tEntry dur).result = Except.error e) :
    (refreshTokensAndPersist auth rt false remote tEntry dur).persisted = none := by
  by_cases hrt : truthyOpt rt = true
  · cases remote with
    | err ee => simp [refreshTokensAndPersist, hrt]
    | ok resp =>
      by_cases ha : truthyOpt resp.access_token = true
      · simp [refreshTokensAndPersist, hrt, ha] at h
      · simp [refreshTokensAndPersist, hrt, ha]
  · simp [refreshTokensAndPersist, hrt]

/-- C1: `usageFetchStep` embeds lines 157–173, the usage fetch of the
account session (it is invoked by `collectUsageForAuth` whether or not
a proactive refresh preceded it). When the initial usage fetch throws
an error whose HTTP status is exactly 401 and a truthy refresh token is
available, the session performs exactly one token refresh (one token
endpoint call beyond those already made), persists the refreshed
bundle, and retries the fetch exactly once with the new access token; a
failure of that refresh, or any failure of the single retry (including
a second 401), becomes the final error with no further refresh or
retry. -/
theorem claim_C1_single_retry (env : SessionEnv) (authPath : String) (auth1 : Auth)
    (tokens1 : Tokens) (idn : Identity) (acct : Option String) (rc : Nat) (ps : List String)
    (e : JsError)
    (henv : env.aborted = false)
    (hfail : env.fetch 0 tokens1.access_token = RemoteOutcome.err e)
    (h401 : e.status = some 401)
    (hrt : truthyOpt tokens1.refresh_token = true) :
    (usageFetchStep env authPath auth1 tokens1 idn acct rc ps).refreshEndpointCalls = rc + 1 ∧
    (∀ e2, (refreshTokensAndPersist auth1 tokens1.refresh_token false (env.refreshRemote rc)
        (env.refreshEntry rc) (env.refreshDur rc)).result = Except.error e2 →
      (usageFetchStep env authPath auth1 tokens1 idn acct rc ps).result = Except.error e2 ∧
      (usageFetchStep env authPath auth1 tokens1 idn acct rc ps).fetchTokens =
        [tokens1.access_token] ∧
      (usageFetchStep env authPath auth1 tokens1 idn acct rc ps).persists = ps) ∧
    (∀ t2, (refreshTokensAndPersist auth1 tokens1.refresh_token false (env.refreshRemote rc)
        (env.refreshEntry rc) (env.refreshDur rc)).result = Except.ok t2 →
      (usageFetchStep env authPath auth1 tokens1 idn acct rc ps).fetchTokens =
        [tokens1.access_token, t2.access_token] ∧
      (∃ c, (refreshTokensAndPersist auth1 tokens1.refresh_token false (env.refreshRemote rc)
          (env.refreshEntry rc) (env.refreshDur rc)).persisted = some c ∧
        (usageFetchStep env authPath auth1 tokens1 idn acct rc ps).persists = ps ++ [c]) ∧
      (∀ e3, env.fetch 1 t2.access_token = RemoteOutcome.err e3 →
        (usageFetchStep env authPath auth1 tokens1 idn acct rc ps).result = Except.error e3) ∧
      (∀ u, env.fetch 1 t2.access_token = RemoteOutcome.ok u →
        ∃ res, (usageFetchStep env authPath auth1 tokens1 idn acct rc ps).result =
          Except.ok res)) := by
  have hone : (refreshTokensAndPersist auth1 tokens1.refresh_token false (env.refreshRemote rc)
      (env.refreshEntry rc) (env.refreshDur rc)).endpointCalls = 1 :=
    refresh_endpointCalls_one _ _ _ _ _ hrt
  rcases hr : (refreshTokensAndPersist auth1 tokens1.refresh_token false (env.refreshRemote rc)
      (env.refreshEntry rc) (env.refreshDur rc)).result with e2 | t2
  · have hpn := refresh_err_persisted_none auth1 tokens1.refresh_token (env.refreshRemote rc)
      (env.refreshEntry rc) (env.refreshDur rc) e2 hr
    have hrun : usageFetchStep env authPath auth1 tokens1 idn acct rc ps =
        ⟨Except.error e2, [tokens1.access_token], rc + 1, ps⟩ := by
      simp [usageFetchStep, hfail, h401, hrt, henv, hr, hone, hpn]
    refine ⟨by rw [hrun], ?_, ?_⟩
    · intro e2x he2x
      injection he2x with h
      subst h
      exact ⟨by rw [hrun], by rw [hrun], by rw [hrun]⟩
    · intro t2x ht2x
      exact Except.noConfusion ht2x
  · have hp := refresh_ok_persisted auth1 tokens1.refresh_token (env.refreshRemote rc)
      (env.refreshEntry rc) (env.refreshDur rc) t2 hr
    rcases hf1 : env.fetch 1 t2.access_token with u | e3
    · have hrun : usageFetchStep env authPath auth1 tokens1 idn acct rc ps =
          ⟨Except.ok (assembleResult env authPath
              (refreshTokensAndPersist auth1 tokens1.refresh_token false (env.refreshRemote rc)
                (env.refreshEntry rc) (env.refreshDur rc)).auth t2 idn acct u),
            [tokens1.access_token, t2.access_token], rc + 1,
            ps ++ [stringifyAuth (refreshTokensAndPersist auth1 tokens1.refresh_token false
              (env.refreshRemote rc) (env.refreshEntry rc) (env.refreshDur rc)).auth ++ "\n"]⟩ := by
        simp [usageFetchStep, hfail, h401, hrt, henv, hr, hf1, hone, hp]
      refine ⟨by rw [hrun], ?_, ?_⟩
      · intro e2x he2x
        exact Except.noConfusion he2x
      · intro t2x ht2x
        injection ht2x with h
        subst h
        refine ⟨by rw [hrun], ⟨_, hp, by rw [hrun]⟩, ?_, ?_⟩
        · intro e3x he3x
          rw [hf1] at he3x
          exact RemoteOutcome.noConfusion he3x
        · intro ux hux
          rw [hf1] at hux
          injection hux with h
          subst h
          exact ⟨_, by rw [hrun]⟩
    · have hrun : usageFetchStep env authPath auth1 tokens1 idn acct rc ps =
          ⟨Except.error e3, [tokens1.access_token, t2.access_token], rc + 1,
            ps ++ [stringifyAuth (refreshTokensAndPersist auth1 tokens1.refresh_token false
              (env.refreshRemote rc) (env.refreshEntry rc) (env.refreshDur rc)).auth ++ "\n"]⟩ := by
        simp [usageFetchStep, hfail, h401, hrt, henv, hr, hf1, hone, hp]
      refine ⟨by rw [hrun], ?_, ?_⟩
      · intro e2x he2x
        exact Except.noConfusion he2x
      · intro t2x ht2x
        injection ht2x with h
        subst h
        refine ⟨by rw [hrun], ⟨_, hp, by rw [hrun]⟩, ?_, ?_⟩
        · intro e3x he3x
          rw [hf1] at he3x
          injection he3x with h
          subst h
          rw [hrun]
        · intro ux hux
          rw [hf1] at hux
          exact RemoteOutcome.noConfusion hux

/-- Concrete oracles for the C1 witness: the first usage fetch returns
401, the token endpoint returns a fresh access token, and the retry
with that token returns a second 401. -/
def c1Env : SessionEnv :=
  { fetch := fun i _ =>
      if i = 0 then RemoteOutcome.err { message := "unauthorized", status := some 401 }
      else RemoteOutcome.err { message := "second", status := some 401 },
    refreshRemote := fun _ => RemoteOutcome.ok { access_token := some "new" } }

/-- Witness for C1: one refresh, one retry with the new token, and the
second 401 becomes the final error. -/
theorem claim_C1_single_retry_witness :
    (usageFetchStep c1Env "p" {} { access_token := some "t0", refresh_token := some "rt" }
      {} none 0 []).refreshEndpointCalls = 1 ∧
    (usageFetchStep c1Env "p" {} { access_token := some "t0", refresh_token := some "rt" }
      {} none 0 []).fetchTokens = [some "t0", some "new"] ∧
    (usageFetchStep c1Env "p" {} { access_token := some "t0", refresh_token := some "rt" }
      {} none 0 []).result = Except.error { message := "second", status := some 401 } := by
  obtain ⟨h1, -, h3⟩ := claim_C1_single_retry c1Env "p" {}
    { access_token := some "t0", refresh_token := some "rt" } {} none 0 []
    { message := "unauthorized", status := some 401 } rfl (by decide) rfl (by decide)
  obtain ⟨hft, -, herr, -⟩ := h3 { access_token := some "new" } (by decide)
  exact ⟨h1, hft, herr { message := "second", status := some 401 } (by decide)⟩

/-- Every error `renderOnceGo` lets escape is an AbortError. -/
theorem renderOnceGo_error_abort (sig : Nat → Bool)
    (outcome : Nat → String → Except JsError AccountResult) (ps : List String) :
    ∀ (i : Nat) (acc : List Row) (e : JsError),
      renderOnceGo sig outcome ps i acc = Except.error e → isAbortError e = true := by
  induction ps with
  | nil =>
    intro i acc e h
    unfold renderOnceGo at h
    by_cases hs : sig i = true
    · rw [if_pos hs] at h
      injection h with h
      subst h
      rfl
    · rw [if_neg hs] at h
      exact Except.noConfusion h
  | cons p ps ih =>
    intro i acc e h
    unfold renderOnceGo at h
    by_cases hs : sig i = true
    · rw [if_pos hs] at h
      injection h with h
      subst h
      rfl
    · rw [if_neg hs] at h
      rcases ho : outcome i p with e0 | r <;> simp only [ho] at h
      · by_cases ha : isAbortError e0 = true
        · rw [if_pos ha] at h
          injection h with h
          subst h
          exact ha
        · rw [if_neg ha] at h
          exact ih _ _ _ h
      · exact ih _ _ _ h

/-- Shape of a successful `renderOnceGo` run: one row per path in
order, a captured (non-abort) failure row exactly where the account
outcome was a non-abort error. -/
theorem renderOnceGo_ok_spec (sig : Nat → Bool)
    (outcome : Nat → String → Except JsError AccountResult) (ps : List String) :
    ∀ (i : Nat) (acc rows : List Row),
      renderOnceGo sig outcome ps i acc = Except.ok rows →
      ∃ tail, rows = acc.reverse ++ tail ∧ tail.length = ps.length ∧
        (∀ j, j < ps.length →
          ∃ p, ps[j]? = some p ∧
            ((∃ r, outcome (i + j) p = Except.ok r ∧ tail[j]? = some (Row.success r)) ∨
             (∃ e, outcome (i + j) p = Except.error e ∧ isAbortError e = false ∧
               tail[j]? = some (Row.failure p e.message)))) := by
  induction ps with
  | nil =>
    intro i acc rows h
    unfold renderOnceGo at h
    by_cases hs : sig i = true
    · rw [if_pos hs] at h
      exact Except.noConfusion h
    · rw [if_neg hs] at h
      injection h with h
      refine ⟨[], by simp [h], rfl, ?_⟩
      intro j hj
      exact absurd hj (Nat.not_lt_zero j)
  | cons p ps ih =>
    intro i acc rows h
    unfold renderOnceGo at h
    by_cases hs : sig i = true
    · rw [if_pos hs] at h
      exact Except.noConfusion h
    · rw [if_neg hs] at h
      rcases ho : outcome i p with e0 | r <;> simp only [ho] at h
      · by_cases ha : isAbortError e0 = true
        · rw [if_pos ha] at h
          exact Except.noConfusion h
        · rw [if_neg ha] at h
          obtain ⟨tail, hrows, hlen, hidx⟩ := ih (i + 1) (Row.failure p e0.message :: acc) rows h
          refine ⟨Row.failure p e0.message :: tail, ?_, by simp [hlen], ?_⟩
          · rw [hrows]
            simp
          · intro j hj
            cases j with
            | zero =>
              refine ⟨p, by simp, Or.inr ⟨e0, ?_, by simpa using ha, by simp⟩⟩
              rw [Nat.add_zero]
              exact ho
            | succ j =>
              obtain ⟨p2, hp2, hcase⟩ := hidx j (by simpa using hj)
              refine ⟨p2, by simpa using hp2, ?_⟩
              have harith : i + 1 + j = i + (j + 1) := by omega
              rw [harith] at hcase
              simpa using hcase
      · obtain ⟨tail, hrows, hlen, hidx⟩ := ih (i + 1) (Row.success r :: acc) rows h
        refine ⟨Row.success r :: tail, ?_, by simp [hlen], ?_⟩
        · rw [hrows]
          simp
        · intro j hj
          cases j with
          | zero =>
            refine ⟨p, by simp, Or.inl ⟨r, ?_, by simp⟩⟩
            rw [Nat.add_zero]
            exact ho
          | succ j =>
            obtain ⟨p2, hp2, hcase⟩ := hidx j (by simpa using hj)
            refine ⟨p2, by simpa using hp2, ?_⟩
            have harith : i + 1 + j = i + (j + 1) := by omega
            rw [harith] at hcase
            simpa using hcase

/-- With no cancellation and no abort outcomes, `renderOnceGo` always
returns a result list. -/
theorem renderOnceGo_total (sig : Nat → Bool)
    (outcome : Nat → String → Except JsError AccountResult) (ps : List String)
    (hsig : ∀ i, sig i = false)
    (hout : ∀ i p e, outcome i p = Except.error e → isAbortError e = false) :
    ∀ (i : Nat) (acc : List Row),
      ∃ rows, renderOnceGo sig outcome ps i acc = Except.ok rows := by
  induction ps with
  | nil =>
    intro i acc
    exact ⟨acc.reverse, by simp [renderOnceGo, hsig i]⟩
  | cons p ps ih =>
    intro i acc
    rcases ho : outcome i p with e0 | r
    · have hna := hout i p e0 ho
      obtain ⟨rows, hrows⟩ := ih (i + 1) (Row.failure p e0.message :: acc)
      exact ⟨rows, by simp [renderOnceGo, hsig i, ho, hna, hrows]⟩
    · obtain ⟨rows, hrows⟩ := ih (i + 1) (Row.success r :: acc)
      exact ⟨rows, by simp [renderOnceGo, hsig i, ho, hrows]⟩

/-- C4: per-pass error isolation. Every error `renderOnce` raises is an
AbortError (cancellation is the only condition that propagates out of a
pass); when a pass returns, it returns exactly one row per configured
path in order, each failed account contributing a captured error row
built from a non-abort error (so cancellation is never written into a
result) without aborting the remaining accounts; and a pass with no
cancellation and no abort outcomes always returns its full list. -/
theorem claim_C4_error_isolation (sig : Nat → Bool)
    (outcome : Nat → String → Except JsError AccountResult) (paths : List String) :
    (∀ e, renderOnce sig outcome paths = Except.error e → isAbortError e = true) ∧
    (∀ rows, renderOnce sig outcome paths = Except.ok rows →
      rows.length = paths.length ∧
      (∀ j, j < paths.length →
        ∃ p, paths[j]? = some p ∧
          ((∃ r, outcome j p = Except.ok r ∧ rows[j]? = some (Row.success r)) ∨
           (∃ e, outcome j p = Except.error e ∧ isAbortError e = false ∧
             rows[j]? = some (Row.failure p e.message))))) ∧
    ((∀ i, sig i = false) →
      (∀ i p e, outcome i p = Except.error e → isAbortError e = false) →
      ∃ rows, renderOnce sig outcome paths = Except.ok rows) := by
  refine ⟨?_, ?_, ?_⟩
  · intro e h
    unfold renderOnce at h
    by_cases hs : sig 0 = true
    · rw [if_pos hs] at h
      injection h with h
      subst h
      rfl
    · rw [if_neg hs] at h
      exact renderOnceGo_error_abort sig outcome paths 0 [] e h
  · intro rows h
    unfold renderOnce at h
    by_cases hs : sig 0 = true
    · rw [if_pos hs] at h
      exact Except.noConfusion h
    · rw [if_neg hs] at h
      obtain ⟨tail, hrows, hlen, hidx⟩ := renderOnceGo_ok_spec sig outcome paths 0 [] rows h
      have hrt : rows = tail := by simpa using hrows
      subst hrt
      refine ⟨hlen, ?_⟩
      intro j hj
      obtain ⟨p, hp, hcase⟩ := hidx j hj
      exact ⟨p, hp, by simpa using hcase⟩
  · intro hsig hout
    obtain ⟨rows, hrows⟩ := renderOnceGo_total sig outcome paths hsig hout 0 []
    exact ⟨rows, by simp [renderOnce, hsig 0, hrows]⟩

/-- Witness for C4: two configured paths, the first failing with an
ordinary (non-abort) error; the pass still returns a row list. -/
theorem claim_C4_error_isolation_witness :
    ∃ rows, renderOnce (fun _ => false)
      (fun i _ => if i = 0 then Except.error { message := "boom" }
        else Except.ok { authFile := "b" }) ["a", "b"] = Except.ok rows := by
  refine (claim_C4_error_isolation (fun _ => false)
    (fun i _ => if i = 0 then Except.error { message := "boom" }
      else Except.ok { authFile := "b" }) ["a", "b"]).2.2 (fun _ => rfl) ?_
  intro i p e h
  by_cases hi : i = 0
  · subst hi
    simp only [if_pos rfl] at h
    injection h with h
    subst h
    rfl
  · rw [if_neg hi] at h
    exact Except.noConfusion h

/-- Environment of the C3 counterexample run: the first pass takes one
second of wall-clock time, later passes are instantaneous, no quit. -/
def c3Env : TailEnv :=
  { renderDur := fun k => if k = 0 then 1000 else 0 }

/-- C3 counterexample: with a first pass running from 0 to 1000 ms, the
second pass starts at 31000 ms — 31000 ms after the previous start but
exactly `REFRESH_INTERVAL_MS` after the previous *completion*. The
claim says passes are scheduled at a 30-second cadence measured between
the starts of successive passes, which would start the second pass at
30000 ms; the loop demonstrably does not (`lastRenderAt` is stamped
after `renderOnce` resolves, so the cadence runs from completion). -/
theorem claim_C3_cadence_counterexample :
    (tailRun c3Env 62 {}).renders.map Prod.fst = [0, 31000] ∧
    (tailRun c3Env 62 {}).renders.map Prod.snd = [1000, 31000] ∧
    31000 - 0 ≠ REFRESH_INTERVAL_MS ∧ 31000 - 1000 = REFRESH_INTERVAL_MS := by
  refine ⟨by decide, by decide, by decide, by decide⟩

/-- C3 (amended): in repeating mode the 30-second cadence is measured
from the *completion* of the last pass: a completed pass stamps
`lastRenderAt` with its completion instant; as long as a pass has
happened, the remaining wait before the next one is
`max(0, REFRESH_INTERVAL_MS − (now − lastRenderAt))` (`tailRemaining`),
and a pass starts immediately (at the current instant) exactly when
that remaining wait is zero; with positive remaining wait the loop only
sleeps one bounded tick of it. -/
theorem claim_C3_amended_cadence (env : TailEnv) (s : TailState)
    (hq : env.quitAt = none) :
    (tailDue s = true → env.renderOutcome s.renders.length = RenderOutcome.rendered →
      (tailStep env s).renders =
        s.renders ++ [(s.time, s.time + env.renderDur s.renders.length)] ∧
      (tailStep env s).lastRenderAt = s.time + env.renderDur s.renders.length) ∧
    (s.lastRenderAt ≠ 0 → (tailRemaining s = 0 ↔ tailDue s = true)) ∧
    (tailDue s = false →
      (tailStep env s).renders = s.renders ∧
      (tailStep env s).time = s.time + tailWaitDuration s) := by
  refine ⟨?_, ?_, ?_⟩
  · intro hdue hro
    have hqw : quitWinsBefore env (s.time + env.renderDur s.renders.length) = false := by
      unfold quitWinsBefore
      rw [hq]
    simp [tailStep, hdue, hqw, hro]
  · intro hlast
    unfold tailRemaining tailDue REFRESH_INTERVAL_MS
    constructor
    · intro h0
      rw [Int.toNat_eq_zero] at h0
      simp only [Bool.or_eq_true, decide_eq_true_eq]
      omega
    · intro hd
      simp only [Bool.or_eq_true, decide_eq_true_eq] at hd
      rw [Int.toNat_eq_zero]
      rcases hd with h | h
      · exact absurd h hlast
      · omega
  · intro hdue
    have hqw : quitWinsBefore env (s.time + tailWaitDuration s) = false := by
      unfold quitWinsBefore
      rw [hq]
    simp [tailStep, hdue, hqw]

/-- Witness for the amended C3: a due state renders immediately and
stamps the completion; a not-due state sleeps one 500 ms tick. -/
theorem claim_C3_amended_cadence_witness :
    (tailStep { renderDur := fun _ => 0 } { time := 31000, lastRenderAt := 1000 }).lastRenderAt =
      31000 ∧
    (tailStep { renderDur := fun _ => 0 } { time := 2000, lastRenderAt := 1000 }).time = 2500 := by
  constructor
  · exact ((claim_C3_amended_cadence { renderDur := fun _ => 0 }
      { time := 31000, lastRenderAt := 1000 } rfl).1 (by decide) rfl).2
  · have h := (claim_C3_amended_cadence { renderDur := fun _ => 0 }
      { time := 2000, lastRenderAt := 1000 } rfl).2.2 (by decide)
    rw [h.2]
    decide

/-- C6: the wait between passes sleeps only in bounded ticks — every
tick is at most `POLL_INTERVAL_MS` (500 ms) long, re-checking the quit
race at each tick boundary instead of sleeping the whole remaining
cadence — and a cancellation firing mid-tick wins the race and makes
the loop exit at the trigger instant, within one tick interval of the
tick start, without raising (the error flag is untouched), regardless
of the remaining cadence time. -/
theorem claim_C6_bounded_ticks (env : TailEnv) (s : TailState) (tq : Nat)
    (hdue : tailDue s = false)
    (hq : env.quitAt = some tq)
    (h1 : s.time ≤ tq)
    (h2 : tq < s.time + tailWaitDuration s) :
    (∀ s2 : TailState, tailWaitDuration s2 ≤ POLL_INTERVAL_MS) ∧
    (tailStep env s).stopped = true ∧
    (tailStep env s).errored = s.errored ∧
    (tailStep env s).time = tq ∧
    (tailStep env s).time ≤ s.time + POLL_INTERVAL_MS := by
  have hqw : quitWinsBefore env (s.time + tailWaitDuration s) = true := by
    unfold quitWinsBefore
    rw [hq]
    simpa using h2
  have hstep : tailStep env s =
      { s with time := quitExitTime env s, stopped := true } := by
    simp [tailStep, hdue, hqw]
  have hexit : quitExitTime env s = tq := by
    unfold quitExitTime
    rw [hq]
    exact Nat.max_eq_right h1
  have hbound : ∀ s2 : TailState, tailWaitDuration s2 ≤ POLL_INTERVAL_MS :=
    fun s2 => Nat.min_le_left _ _
  refine ⟨hbound, by rw [hstep], by rw [hstep], by rw [hstep, hexit], ?_⟩
  rw [hstep, hexit]
  show tq ≤ s.time + POLL_INTERVAL_MS
  have := hbound s
  omega

/-- Witness for C6: a quit firing 200 ms into a tick stops the loop at
that instant. -/
theorem claim_C6_bounded_ticks_witness :
    (tailStep { renderDur := fun _ => 0, quitAt := some 1200 }
      { time := 1000, lastRenderAt := 900 }).stopped = true ∧
    (tailStep { renderDur := fun _ => 0, quitAt := some 1200 }
      { time := 1000, lastRenderAt := 900 }).time = 1200 := by
  have h := claim_C6_bounded_ticks { renderDur := fun _ => 0, quitAt := some 1200 }
    { time := 1000, lastRenderAt := 900 } 1200 (by decide) rfl (by decide) (by decide)
  exact ⟨h.2.1, h.2.2.2.1⟩
